import Mathlib

/-!
Shallow embedding of the widgets repository (Popover.tsx, Dialog.tsx,
RouterPreferenceToggle.tsx) and proofs about its behaviour.

The DOM, React lifecycle and timers are modelled explicitly: effects are
state-transforming functions, the single entry-settle timeout is a function of
time since mount, and click dispatch is event bubbling over the list of
handlers attached in the render tree.
-/

/-- Animation kinds of a Dialog, from `DialogAnimationType` in Dialog.tsx
(slide is the default when no kind is supplied). -/
inductive DialogAnimationType where
  | SLIDE
  | FADE
  | NONE
deriving DecidableEq, Repr

/-- Exit-animation class names, from `SlideAnimationType` in Dialog.tsx. -/
inductive SlideAnimationType where
  | CLOSING
  | PAGING
deriving DecidableEq, Repr

/-- The unmounting-animation callback passed to `useUnmountingAnimation` inside
`Dialog` (Dialog.tsx lines 311-332). A `none` result models the empty class
string returned for animation kind NONE; `childElementCount` models
`mountPoint?.childElementCount ?? 0`, read at the moment of unmounting. The
wildcard branch covers both an explicit SLIDE kind and an absent kind, matching
the `case SLIDE: default:` fallthrough of the source switch. -/
def getUnmountingAnimation (animationType : Option DialogAnimationType)
    (pageCentered : Bool) (childElementCount : Option Nat) :
    Option SlideAnimationType :=
  match animationType with
  | some DialogAnimationType.NONE => none
  | some DialogAnimationType.FADE => some SlideAnimationType.CLOSING
  | _ =>
    if pageCentered then some SlideAnimationType.CLOSING
    else if childElementCount.getD 0 > 1 then some SlideAnimationType.PAGING
    else some SlideAnimationType.CLOSING

/-- The `applyMaxSize` popper modifier of Popover.tsx (lines 128-142), applied
only in contained mode: the width computed by the max-size modifier is expanded
to at least the boundary clientWidth minus 16, via
`Math.max(width, (boundary?.clientWidth ?? 16) - 16)`. -/
def applyMaxSize (width : ℚ) (boundaryClientWidth : Option ℚ) : ℚ :=
  max width (boundaryClientWidth.getD 16 - 16)

/-- JavaScript `x || d` on an optional number: the default is used when the
value is absent or zero (both are falsy). -/
def jsOrDefault (x : Option ℚ) (d : ℚ) : ℚ :=
  match x with
  | none => d
  | some v => if v = 0 then d else v

/-- The applied main-axis popper offset, from the offset modifier of
Popover.tsx line 120: `offset: [0, offset || 4]`. -/
def appliedOffset (offset : Option ℚ) : ℚ :=
  jsOrDefault offset 4

/-- The background content root wrapped by `Provider` in Dialog.tsx, carrying
the accessibility inert flag. -/
structure BackgroundRoot where
  inert : Bool
deriving DecidableEq, Repr

/-- The Dialog context state owned by `Provider` (Dialog.tsx line 68):
whether a Dialog is currently active. -/
structure DialogContext where
  active : Bool
deriving DecidableEq, Repr

/-- The Provider effect of Dialog.tsx lines 70-74:
`if (ref.current) ref.current.inert = active`. When the root ref is absent
nothing happens. -/
def providerInertEffect (active : Bool) (root : Option BackgroundRoot) :
    Option BackgroundRoot :=
  match root with
  | some _ => some ⟨active⟩
  | none => none

/-- The mount effect of `Dialog` (Dialog.tsx lines 286-289):
`context.setActive(true)`. -/
def dialogSetActiveEffect (_ctx : DialogContext) : DialogContext :=
  ⟨true⟩

/-- The cleanup of the same effect: `() => context.setActive(false)`, run on
unmount regardless of animation kind or close path. -/
def dialogSetActiveCleanup (_ctx : DialogContext) : DialogContext :=
  ⟨false⟩

/-- Mounting a Dialog: the Dialog effect sets active, then the Provider effect
syncs the inert flag of the background root to the new active value. -/
def mountDialog (ctx : DialogContext) (root : Option BackgroundRoot) :
    DialogContext × Option BackgroundRoot :=
  let c := dialogSetActiveEffect ctx
  (c, providerInertEffect c.active root)

/-- Unmounting a Dialog: the exit label is computed by
`getUnmountingAnimation`, the active flag is cleared by the effect cleanup,
and the Provider effect syncs the inert flag. -/
def unmountDialog (animationType : Option DialogAnimationType)
    (pageCentered : Bool) (childElementCount : Option Nat)
    (ctx : DialogContext) (root : Option BackgroundRoot) :
    Option SlideAnimationType × DialogContext × Option BackgroundRoot :=
  let label := getUnmountingAnimation animationType pageCentered childElementCount
  let c := dialogSetActiveCleanup ctx
  (label, c, providerInertEffect c.active root)

/-- `PopoverAnimationUpdateDelay` of Dialog.tsx line 275: 100 milliseconds,
accounting for animation lag. -/
def PopoverAnimationUpdateDelay : Nat := 100

/-- Delay of the timeout scheduled in the Dialog mount effect (Dialog.tsx
lines 293-298): the entry transition duration from the theme plus the update
delay. The theme constant is kept as a parameter. -/
def updateTriggerDelay (transitionDurationMedium : Nat) : Nat :=
  transitionDurationMedium + PopoverAnimationUpdateDelay

/-- Initial `updatePopover` state: `useState(false)` in Dialog.tsx line 292. -/
def updatePopoverInit : Bool := false

/-- The timeout callback `setUpdatePopover(true)`. -/
def setUpdatePopoverTrue (_ : Bool) : Bool := true

/-- Value of the `updatePopover` trigger token `t` milliseconds after mount:
the single timeout scheduled on mount fires once at `updateTriggerDelay`, after
which the state holds the result of the callback; before then it holds its
initial value. -/
def updatePopoverAt (transitionDurationMedium t : Nat) : Bool :=
  if updateTriggerDelay transitionDurationMedium ≤ t then
    setUpdatePopoverTrue updatePopoverInit
  else updatePopoverInit

/-- React re-runs the Popover update effect exactly when a dependency changed:
models `useEffect(() => update?.(), [update, updateTrigger])` in Popover.tsx
lines 155-157, which recomputes the floating position. -/
def popoverUpdateEffectRuns (prevTrigger currTrigger : Bool) : Bool :=
  prevTrigger != currTrigger

/-- The Dialog mount effect schedules the entry-settle timeout (Dialog.tsx
lines 293-298); the pending-timer state records its fire time. -/
def scheduleUpdatePopoverTimer (transitionDurationMedium : Nat)
    (_pending : Option Nat) : Option Nat :=
  some (updateTriggerDelay transitionDurationMedium)

/-- The same effect returns no cleanup function and the timeout id is never
stored, so on unmount React runs no cleanup and the pending timeout is left
unchanged: there is no `clearTimeout` anywhere in Dialog.tsx. -/
def updatePopoverEffectCleanup (pending : Option Nat) : Option Nat :=
  pending

/-- The floating portal of Popover.tsx lines 162-176: content is portalled into
the boundary only when a boundary exists in context,
`boundary && createPortal(content, boundary)`. -/
def popoverPortal {α β : Type} (boundary : Option α) (content : β) :
    Option (β × α) :=
  match boundary with
  | some b => some (content, b)
  | none => none

/-- The Dialog mount point of Dialog.tsx lines 302-303: the document body when
page-centered, otherwise the context element. -/
def dialogMountPoint {α : Type} (pageCentered : Bool)
    (contextElement : Option α) (documentBody : α) : Option α :=
  if pageCentered then some documentBody else contextElement

/-- The Dialog render of Dialog.tsx lines 336-365:
`mountPoint && createPortal(children, mountPoint)`. -/
def dialogPortal {α β : Type} (pageCentered : Bool) (contextElement : Option α)
    (documentBody : α) (content : β) : Option (β × α) :=
  match dialogMountPoint pageCentered contextElement documentBody with
  | some m => some (content, m)
  | none => none

/-- Click handlers attached in the Dialog render tree: the Modal click handler,
the FullScreenWrapper click handler, and elements with no handler. -/
inductive ClickHandler where
  | modalHandler
  | wrapperHandler
  | noHandler
deriving DecidableEq, Repr

/-- A click event being dispatched: how many times the close callback has been
invoked, and whether stopPropagation has been called. -/
structure ClickEvent where
  closeInvocations : Nat
  propagationStopped : Bool
deriving DecidableEq, Repr

/-- `closeOnBackgroundClick` of Dialog.tsx lines 305-307:
`if (pageCentered && onClose) onClose()`. -/
def closeOnBackgroundClick (pageCentered hasOnClose : Bool) (e : ClickEvent) :
    ClickEvent :=
  if pageCentered && hasOnClose then ⟨e.closeInvocations + 1, e.propagationStopped⟩
  else e

/-- The Modal click handler of Dialog.tsx lines 350-352:
`pageCentered && e.stopPropagation()`. -/
def modalOnClick (pageCentered : Bool) (e : ClickEvent) : ClickEvent :=
  if pageCentered then ⟨e.closeInvocations, true⟩ else e

/-- Runs a single handler of the tree on a click event. -/
def runClickHandler (pageCentered hasOnClose : Bool) :
    ClickHandler → ClickEvent → ClickEvent
  | ClickHandler.modalHandler, e => modalOnClick pageCentered e
  | ClickHandler.wrapperHandler, e => closeOnBackgroundClick pageCentered hasOnClose e
  | ClickHandler.noHandler, e => e

/-- DOM event bubbling: handlers run from the click target upward through its
ancestors; stopPropagation prevents every later handler from running. -/
def bubbleClick (pageCentered hasOnClose : Bool) :
    List ClickHandler → ClickEvent → ClickEvent
  | [], e => e
  | h :: rest, e =>
    let e2 := runClickHandler pageCentered hasOnClose h e
    if e2.propagationStopped then e2 else bubbleClick pageCentered hasOnClose rest e2

/-- Bubbling path of a click on the Dialog background: the target is the
FullScreenWrapper itself, so only its handler runs before the event leaves the
portal toward ancestors. -/
def backgroundClickPath : List ClickHandler :=
  [ClickHandler.wrapperHandler]

/-- Bubbling path of a click inside the Modal: Modal, then the handler-less
AnimationWrapper and HiddenWrapper, then the FullScreenWrapper. -/
def modalClickPath : List ClickHandler :=
  [ClickHandler.modalHandler, ClickHandler.noHandler, ClickHandler.noHandler,
    ClickHandler.wrapperHandler]

/-- Dispatches a fresh click on the Dialog background. -/
def dispatchBackgroundClick (pageCentered hasOnClose : Bool) : ClickEvent :=
  bubbleClick pageCentered hasOnClose backgroundClickPath ⟨0, false⟩

/-- Modelled from the spec: the router preference enumeration lives in
`hooks/routing/types`, which is not under src/; the spec describes the settings
row as a toggle between the auto-router API and client-side routing, so the
enumeration has the two members referenced by RouterPreferenceToggle.tsx. -/
inductive RouterPreference where
  | API
  | CLIENT
deriving DecidableEq, Repr

/-- State visible to RouterPreferenceToggle: the current preference atom value
and the list of values passed to the `onRouterPreferenceChange` handler. -/
structure RouterToggleState where
  routerPreference : RouterPreference
  changeCalls : List RouterPreference
deriving DecidableEq, Repr

/-- `setRouterPreference` of RouterPreferenceToggle.tsx lines 17-23: invokes
`onRouterPreferenceChange?.(update)` when the handler is defined, then sets the
preference atom to `update`. -/
def setRouterPreference (hasHandler : Bool) (update : RouterPreference)
    (s : RouterToggleState) : RouterToggleState :=
  ⟨update, s.changeCalls ++ if hasHandler then [update] else []⟩

/-- `onToggle` of RouterPreferenceToggle.tsx lines 25-32: API toggles to
CLIENT, anything else toggles to API. -/
def onToggle (hasHandler : Bool) (s : RouterToggleState) : RouterToggleState :=
  if s.routerPreference = RouterPreference.API then
    setRouterPreference hasHandler RouterPreference.CLIENT s
  else
    setRouterPreference hasHandler RouterPreference.API s

/-- Claim C1 counterexample: a page-centered slide Dialog whose mount root
(the document body) has two children at the moment of unmount receives exit
label CLOSING, not PAGING as the claim requires for a mount root with more
than one child. -/
theorem c1_counterexample :
    getUnmountingAnimation (some DialogAnimationType.SLIDE) true (some 2)
        = some SlideAnimationType.CLOSING ∧
      getUnmountingAnimation (some DialogAnimationType.SLIDE) true (some 2)
        ≠ some SlideAnimationType.PAGING := by
  decide

/-- Claim C1 (amended): for a Dialog with slide animation kind, explicit or by
default, that is not page-centered, the exit label is PAGING when the mount
root has more than one child and CLOSING when it has exactly one; a
page-centered slide Dialog always receives CLOSING. -/
theorem c1_slide_exit_label (animationType : Option DialogAnimationType)
    (h : animationType = some DialogAnimationType.SLIDE ∨ animationType = none)
    (childElementCount : Nat) :
    (1 < childElementCount →
      getUnmountingAnimation animationType false (some childElementCount)
        = some SlideAnimationType.PAGING) ∧
    (childElementCount = 1 →
      getUnmountingAnimation animationType false (some childElementCount)
        = some SlideAnimationType.CLOSING) ∧
    getUnmountingAnimation animationType true (some childElementCount)
      = some SlideAnimationType.CLOSING := by
  rcases h with h | h <;> subst h <;>
    exact ⟨fun hc => by simp [getUnmountingAnimation, hc],
      fun hc => by simp [getUnmountingAnimation, hc], rfl⟩

/-- Claim C1 witness: with slide animation, not page-centered, and two children
in the mount root, the exit label evaluates to PAGING. -/
theorem c1_witness :
    getUnmountingAnimation (some DialogAnimationType.SLIDE) false (some 2)
      = some SlideAnimationType.PAGING :=
  (c1_slide_exit_label (some DialogAnimationType.SLIDE) (Or.inl rfl) 2).1
    (by decide)

/-- Claim C2: in contained mode the applied maximum width is never below the
boundary clientWidth minus 16 pixels, whatever width the underlying max-size
computation produced. -/
theorem c2_applyMaxSize_lower_bound (width clientWidth : ℚ) :
    clientWidth - 16 ≤ applyMaxSize width (some clientWidth) := by
  unfold applyMaxSize
  exact le_max_right width (clientWidth - 16)

/-- Claim C3: mounting a Dialog sets the background root inert flag to true,
and unmounting sets it back to false, for every animation kind, centering mode,
child count, and prior state. -/
theorem c3_inert_lifecycle (animationType : Option DialogAnimationType)
    (pageCentered : Bool) (childElementCount : Option Nat)
    (ctx : DialogContext) (root : BackgroundRoot) :
    (mountDialog ctx (some root)).2 = some ⟨true⟩ ∧
      (unmountDialog animationType pageCentered childElementCount ctx
          (some root)).2.2 = some ⟨false⟩ := by
  exact ⟨rfl, rfl⟩

/-- Claim C4: the updatePopover trigger token changes identity exactly once,
at the instant the entry-settle timeout fires; it is never true earlier than
the entry transition duration plus 100 milliseconds after mount; and the
Popover update effect re-runs, recomputing the position, at that change. -/
theorem c4_update_trigger (transitionDurationMedium t : Nat) :
    ((updatePopoverAt transitionDurationMedium t
        ≠ updatePopoverAt transitionDurationMedium (t + 1)) ↔
      t + 1 = updateTriggerDelay transitionDurationMedium) ∧
    (updatePopoverAt transitionDurationMedium t = true →
      transitionDurationMedium + 100 ≤ t) ∧
    (t + 1 = updateTriggerDelay transitionDurationMedium →
      popoverUpdateEffectRuns (updatePopoverAt transitionDurationMedium t)
        (updatePopoverAt transitionDurationMedium (t + 1)) = true) := by
  unfold updatePopoverAt popoverUpdateEffectRuns updateTriggerDelay
    PopoverAnimationUpdateDelay setUpdatePopoverTrue updatePopoverInit
  by_cases h1 : transitionDurationMedium + 100 ≤ t <;>
    by_cases h2 : transitionDurationMedium + 100 ≤ t + 1 <;>
    simp [h1, h2] <;> omega

/-- Claim C4 witness: with a 250ms entry transition the trigger is true at
350ms after mount, hence 350 is at least 250 plus 100, and the update effect
re-runs across the change at 350ms. -/
theorem c4_witness :
    250 + 100 ≤ 350 ∧
      popoverUpdateEffectRuns (updatePopoverAt 250 349) (updatePopoverAt 250 350)
        = true :=
  ⟨(c4_update_trigger 250 350).2.1 (by decide),
    (c4_update_trigger 250 349).2.2 (by decide)⟩

/-- Claim C5 (code bug evidence): the Dialog mount effect schedules the
entry-settle timeout but returns no cleanup function, so after an unmount at
any time the timeout is still pending and its callback still sets the trigger
to true against the unmounted instance. -/
theorem c5_timer_not_cancelled :
    updatePopoverEffectCleanup (scheduleUpdatePopoverTimer 250 none) = some 350 ∧
      setUpdatePopoverTrue updatePopoverInit = true := by
  decide

/-- Claim C6: with no boundary in context the Popover renders no floating
content, and with no context element and no page-centering the Dialog renders
no overlay content; both are silent no-ops, total functions returning none. -/
theorem c6_no_mount_no_render {α β : Type} (boundary : Option α)
    (contextElement : Option α) (documentBody : α) (content : β)
    (hb : boundary = none) (hc : contextElement = none) :
    popoverPortal boundary content = none ∧
      dialogPortal false contextElement documentBody content = none := by
  subst hb
  subst hc
  exact ⟨rfl, rfl⟩

/-- Claim C6 witness: evaluated at concrete elements, both renders are none. -/
theorem c6_witness :
    popoverPortal (none : Option Nat) (0 : Nat) = none ∧
      dialogPortal false (none : Option Nat) (7 : Nat) (0 : Nat) = none :=
  c6_no_mount_no_render none none 7 0 rfl rfl

/-- Claim C7: a click on the Dialog background invokes the close callback only
in page-centered mode; in ancestor-constrained mode it neither invokes the
close callback nor stops propagation toward ancestors; in page-centered mode
with a close callback it invokes it exactly once. -/
theorem c7_background_click (pageCentered hasOnClose : Bool) :
    (0 < (dispatchBackgroundClick pageCentered hasOnClose).closeInvocations →
      pageCentered = true) ∧
    (pageCentered = false →
      (dispatchBackgroundClick pageCentered hasOnClose).closeInvocations = 0 ∧
      (dispatchBackgroundClick pageCentered hasOnClose).propagationStopped
        = false) ∧
    (pageCentered = true → hasOnClose = true →
      (dispatchBackgroundClick pageCentered hasOnClose).closeInvocations = 1) := by
  cases pageCentered <;> cases hasOnClose <;> decide

/-- Claim C7 witness: in ancestor-constrained mode with a close callback
supplied, a background click invokes nothing and is not stopped. -/
theorem c7_witness :
    (dispatchBackgroundClick false true).closeInvocations = 0 ∧
      (dispatchBackgroundClick false true).propagationStopped = false :=
  (c7_background_click false true).2.1 rfl

/-- Claim C8: when the caller supplies no offset, the applied popper offset is
4 logical pixels. -/
theorem c8_default_offset : appliedOffset none = 4 := rfl

/-- Claim C9: an explicit zero offset is indistinguishable from an omitted one:
both apply the 4 pixel default. -/
theorem c9_zero_offset : appliedOffset (some 0) = appliedOffset none := by
  simp [appliedOffset, jsOrDefault]

/-- Claim C10: onToggle maps an API preference to CLIENT and any other
preference to API; when the change handler is defined it is invoked exactly
once per toggle, with exactly the new preference value, and when it is
undefined no invocation is recorded. -/
theorem c10_onToggle (s : RouterToggleState) :
    (onToggle true s).routerPreference =
      (if s.routerPreference = RouterPreference.API then RouterPreference.CLIENT
        else RouterPreference.API) ∧
    (onToggle true s).changeCalls
      = s.changeCalls ++ [(onToggle true s).routerPreference] ∧
    (onToggle false s).changeCalls = s.changeCalls := by
  obtain ⟨pref, calls⟩ := s
  cases pref <;> simp [onToggle, setRouterPreference]
